import Mathlib

/-!
Verification development for the social-auth service.

The definitions below are a shallow embedding of the repository's code:
`TokenStore` (src/token_store/TokenStore.py, SQLite fallback backend),
`MongoDataStore` (src/datastore/MongoDataStore.py), the retry helper
(src/utils/util.py) and the `Authenticator` entrypoints
(src/authenticator/Authenticator.py).  Time is modelled as a natural
number of seconds passed explicitly; the SQLite table is a list of rows;
Python dicts of string keys/values are association lists; Python `None`
is `Option.none`.  Sleeping durations are recorded in milliseconds
(0.5 s = 500 ms) so that all arithmetic stays in `Nat`.  The SHA-256
digest and the JWT signing primitive are external libraries (`hashlib`,
`pyjwt`); the hash is carried as an opaque function in the
configuration, and a signed JWT is modelled as its claim set together
with the secret and algorithm it was signed with, with `jwt.decode`
checking both and the standard expiry.
-/

namespace SocialAuth

/-- Association list standing for a Python dict with string keys and
string values (Python dicts have unique keys; lookup is by first hit). -/
abbrev Extra := List (String × String)

/-- Python `d.get(k)`: `some v` when the key is present, `none` otherwise. -/
def dlookup (d : Extra) (k : String) : Option String :=
  (d.find? (fun kv => kv.1 == k)).map (fun kv => kv.2)

/-- Python `==` between two dicts: same keys, same values (order of
insertion is irrelevant). -/
def dictEq (a b : Extra) : Bool :=
  a.all (fun kv => dlookup b kv.1 == some kv.2) &&
  b.all (fun kv => dlookup a kv.1 == some kv.2)

/-! ## Token store: SQLite fallback backend (src/token_store/TokenStore.py)

A row of the `tokens` table: `jti TEXT PRIMARY KEY, payload TEXT,
expires_at INTEGER`.  The payload column is generic in `α` (the code
stores a JSON string; different operations look at it differently). -/

structure Row (α : Type) where
  jti : String
  payload : α
  expires_at : Nat
deriving Repr, DecidableEq

/-- The `tokens` table. -/
abbrev Table (α : Type) := List (Row α)

/-- `REPLACE INTO tokens (jti, payload, expires_at) VALUES (?, ?, ?)`:
any row with the same primary key is replaced (TokenStore.set, SQLite
branch). -/
def sqlite_set {α : Type} (t : Table α) (jti : String) (payload : α)
    (expires_at : Nat) : Table α :=
  t.filter (fun r => ¬ r.jti == jti) ++ [⟨jti, payload, expires_at⟩]

/-- `DELETE FROM tokens WHERE jti = ?` (TokenStore.delete, SQLite
branch). -/
def sqlite_delete {α : Type} (t : Table α) (jti : String) : Table α :=
  t.filter (fun r => ¬ r.jti == jti)

/-- TokenStore.get, SQLite branch: select the row by `jti`; if absent
return `None`; if `int(time.time()) > expires_at` delete the row and
return `None`; otherwise return the payload.  The result is the returned
value paired with the table after the call. -/
def sqlite_get {α : Type} (now : Nat) (t : Table α) (jti : String) :
    Option α × Table α :=
  match t.find? (fun r => r.jti == jti) with
  | none => (none, t)
  | some r =>
    if now > r.expires_at then (none, sqlite_delete t jti)
    else (some r.payload, t)

/-- TokenStore.cleanup_expired, SQLite branch:
`DELETE FROM tokens WHERE expires_at <= now`. -/
def cleanup_expired {α : Type} (now : Nat) (t : Table α) : Table α :=
  t.filter (fun r => ¬ r.expires_at ≤ now)

/-! ## cleanup_user (TokenStore.cleanup_user, SQLite branch)

The payload column holds a JSON string; `json.loads` either yields an
object (modelled as its string fields) or fails (`.malformed`, skipped
by the bare `except: pass`). -/

inductive JPayload : Type
  | obj (fields : Extra)
  | malformed
deriving Repr, DecidableEq

/-- The row-selection test of `cleanup_user`:
`data.get("provider") == provider and data.get("uid") == uid`.  A
malformed payload never matches (the parse error is swallowed). -/
def payloadMatches (provider uid : String) : JPayload → Bool
  | .obj fields =>
    dlookup fields "provider" == some provider &&
    dlookup fields "uid" == some uid
  | .malformed => false

/-- Result of `cleanup_user`: the table afterwards, the count that is
written to the log, and the function's Python return value (`None`,
there is no return statement). -/
structure CleanupUserOut where
  table : Table JPayload
  loggedCount : Nat
  ret : Option Nat
deriving Repr, DecidableEq

/-- TokenStore.cleanup_user, SQLite branch: select all rows, collect the
`jti`s whose parsed payload matches `provider`/`uid`, delete each one,
log the count, and fall off the end of the function (returning `None`). -/
def cleanup_user (t : Table JPayload) (provider uid : String) :
    CleanupUserOut :=
  let toDelete :=
    (t.filter (fun r => payloadMatches provider uid r.payload)).map
      (fun r => r.jti)
  { table := toDelete.foldl (fun acc j => sqlite_delete acc j) t
    loggedCount := toDelete.length
    ret := none }

/-! ## Identity store (src/datastore/MongoDataStore.py)

A user document as built by `upsert_user` (the `_id` bookkeeping field
is irrelevant to the claims and omitted; the diff loop skips it). -/

structure UserDoc where
  provider : String
  social_id : String
  social_token : String
  name : String
  email : String
  extra : Extra
deriving Repr, DecidableEq

/-- The `users` collection. -/
structure MongoStore where
  users : List UserDoc
deriving Repr, DecidableEq

/-- MongoDataStore.get_user:
`find_one({"provider": provider, "social_id": social_id})`. -/
def get_user (s : MongoStore) (provider social_id : String) : Option UserDoc :=
  s.users.find? (fun u => u.provider == provider && u.social_id == social_id)

/-- Python `x or ""`: `None` (and `""` itself) become the empty string. -/
def pyOr (o : Option String) : String := o.getD ""

/-- The document `upsert_user` builds before inserting (source order of
the dict literal: provider, social_id, social_token, name, email,
extra). -/
def mkDoc (provider social_id social_token : String)
    (name email : Option String) (extra : Extra) : UserDoc :=
  { provider := provider
    social_id := social_id
    social_token := social_token
    name := pyOr name
    email := pyOr email
    extra := extra }

/-- Field names of a user document, as they appear in the `$set` update
issued by `upsert_user`. -/
inductive Field : Type
  | provider
  | social_id
  | social_token
  | name
  | email
  | extra
deriving Repr, DecidableEq

/-- The diff loop of `upsert_user`: iterate over the new document's
fields in insertion order, record a field when the existing document's
value differs (`extra` is compared with Python dict equality). -/
def diffFields (newd existing : UserDoc) : List Field :=
  (if existing.provider = newd.provider then [] else [.provider]) ++
  (if existing.social_id = newd.social_id then [] else [.social_id]) ++
  (if existing.social_token = newd.social_token then [] else [.social_token]) ++
  (if existing.name = newd.name then [] else [.name]) ++
  (if existing.email = newd.email then [] else [.email]) ++
  (if dictEq existing.extra newd.extra then [] else [.extra])

/-- Overwrite one field of `e` with the corresponding field of `newd`
(one entry of the `$set` document). -/
def setField (e newd : UserDoc) : Field → UserDoc
  | .provider => { e with provider := newd.provider }
  | .social_id => { e with social_id := newd.social_id }
  | .social_token => { e with social_token := newd.social_token }
  | .name => { e with name := newd.name }
  | .email => { e with email := newd.email }
  | .extra => { e with extra := newd.extra }

/-- Apply a `$set` update (`existing.update(updates)` on the Python
side). -/
def mergeDoc (e newd : UserDoc) (fs : List Field) : UserDoc :=
  fs.foldl (fun acc f => setField acc newd f) e

/-- `update_one` with the (provider, social_id) filter: replace the
first matching document. -/
def replaceFirst (l : List UserDoc) (provider social_id : String)
    (merged : UserDoc) : List UserDoc :=
  match l with
  | [] => []
  | u :: us =>
    if u.provider == provider && u.social_id == social_id then merged :: us
    else u :: replaceFirst us provider social_id merged

/-- The write `upsert_user` performed: a fresh insert, an `update_one`
whose `$set` document holds exactly the listed fields, or no write at
all. -/
inductive UpsertEffect : Type
  | insertedDoc
  | updated (fields : List Field)
  | noWrite
deriving Repr, DecidableEq

/-- Result of `upsert_user`: the collection afterwards, the returned
document, and the write that was issued. -/
structure UpsertOut where
  store : MongoStore
  doc : UserDoc
  effect : UpsertEffect
deriving Repr, DecidableEq

/-- MongoDataStore.upsert_user: try `insert_one`; on the duplicate-key
conflict (a document with this (provider, social_id) already exists,
per the unique index) fetch the existing document, diff field by field,
and issue one `$set` update with only the changed fields — or no update
when nothing differs. -/
def upsert_user (s : MongoStore) (provider social_id social_token : String)
    (name email : Option String) (extra : Extra) : UpsertOut :=
  let newd := mkDoc provider social_id social_token name email extra
  match get_user s provider social_id with
  | none =>
    { store := ⟨s.users ++ [newd]⟩, doc := newd, effect := .insertedDoc }
  | some existing =>
    let fs := diffFields newd existing
    if fs = [] then
      { store := s, doc := existing, effect := .noWrite }
    else
      let merged := mergeDoc existing newd fs
      { store := ⟨replaceFirst s.users provider social_id merged⟩
        doc := merged
        effect := .updated fs }

/-- MongoDataStore.delete_user: `delete_one` on the (provider,
social_id) filter; the returned Bool is `deleted_count > 0`. -/
def mongo_delete_user (s : MongoStore) (provider social_id : String) :
    Bool × MongoStore :=
  match get_user s provider social_id with
  | none => (false, s)
  | some _ =>
    (true,
     ⟨s.users.eraseP (fun u => u.provider == provider && u.social_id == social_id)⟩)

/-! ## Retry helper (src/utils/util.py, async_retry) -/

/-- Outcome of `async_retry`: the value returned or the exception that
escaped, the number of calls made to the wrapped coroutine, and the
sleeps performed between successive attempts (milliseconds). -/
structure RetryOut (ε α : Type) where
  result : Except ε α
  calls : Nat
  sleepsMs : List Nat
deriving Repr

/-- The `while True` loop of `async_retry`, with the wrapped coroutine
modelled as a function from the call index (0-based) to that call's
outcome.  `fuel` is the number of retries still allowed: at `fuel = 0`
the next failure is re-raised (`attempt > retries`). -/
def retryGo {ε α : Type} (f : Nat → Except ε α) (backoffMs : Nat) :
    Nat → Nat → RetryOut ε α
  | i, 0 => { result := f i, calls := 1, sleepsMs := [] }
  | i, fuel + 1 =>
    match f i with
    | .ok a => { result := .ok a, calls := 1, sleepsMs := [] }
    | .error _ =>
      let r := retryGo f backoffMs (i + 1) fuel
      { result := r.result
        calls := r.calls + 1
        sleepsMs := backoffMs * 2 ^ i :: r.sleepsMs }

/-- utils.async_retry: retry the call with exponential backoff,
`backoff_factor * 2 ** (attempt - 1)` seconds after the `attempt`-th
failure, re-raising the failure once `attempt > retries`.  The source
defaults (`retries=3`, `backoff_factor=0.5`) are passed explicitly at
the call sites below as `3` and `500` ms. -/
def async_retry {ε α : Type} (f : Nat → Except ε α) (retries : Nat)
    (backoffMs : Nat) : RetryOut ε α :=
  retryGo f backoffMs 0 retries

/-! ## Session issuer (src/authenticator/Authenticator.py) -/

/-- A provider validator response, `{uid, name?, email?, ...extra}`:
`uid`/`name`/`email` are the values of `info.get(...)` and `extra` is
the dict of the remaining keys. -/
structure Info where
  uid : Option String
  name : Option String
  email : Option String
  extra : Extra
deriving Repr, DecidableEq

/-- The exception classes the authenticator can surface (the
`exceptions` package as imported and raised by the source:
`ProviderValidationError`, `DataError`, `TokenStoreError`).  Note that
the code has no separate class for an unsupported provider: that branch
raises `ProviderValidationError` too. -/
inductive AuthError : Type
  | providerValidation (msg : String)
  | dataError (msg : String)
  | tokenStoreError (msg : String)
deriving Repr, DecidableEq

/-- The JWT claim set minted by `authenticate` (insertion order of the
source's dict literal). -/
structure Claims where
  iss : String
  sub : String
  provider : String
  uid : String
  iat : Nat
  exp : Nat
  jti : String
  st_hash : String
deriving Repr, DecidableEq

/-- A candidate app token: either a token produced by `jwt.encode`
(its claim set plus the secret and algorithm that signed it) or any
other string, which `jwt.decode` rejects as structurally invalid. -/
inductive AppToken : Type
  | signed (claims : Claims) (secret : String) (algo : String)
  | malformed (raw : String)
deriving Repr, DecidableEq

/-- `jwt.encode(claims, secret, algorithm=algo)`. -/
def jwt_encode (claims : Claims) (secret algo : String) : AppToken :=
  .signed claims secret algo

/-- Outcome of `jwt.decode`: the decoded claims, or
`ExpiredSignatureError`, or any other `InvalidTokenError` (bad
signature, wrong algorithm, malformed token). -/
inductive DecodeResult : Type
  | ok (claims : Claims)
  | expired
  | invalid
deriving Repr, DecidableEq

/-- `jwt.decode(token, secret, algorithms=[algo])`: signature and
algorithm are checked first, then the standard `exp` claim (PyJWT
raises `ExpiredSignatureError` when `exp <= now`). -/
def jwt_decode (tok : AppToken) (secret algo : String) (now : Nat) :
    DecodeResult :=
  match tok with
  | .malformed _ => .invalid
  | .signed c s a =>
    if s = secret ∧ a = algo then
      if c.exp ≤ now then .expired else .ok c
    else .invalid

/-- The server-side session record written under the fresh `jti`
(`store_payload` in the source); `meta` is the validator response minus
its `uid` key, i.e. the optional name/email plus the extra dict. -/
structure SessionPayload where
  provider : String
  uid : String
  st_hash : String
  issued_at : Nat
  expires_at : Nat
  metaName : Option String
  metaEmail : Option String
  metaExtra : Extra
deriving Repr, DecidableEq

/-- Externally visible side effects of one `authenticate` call, in
order: a network call to the provider validator, the identity-store
upsert, the session-store write. -/
inductive Event : Type
  | validatorCall (provider : String) (attempt : Nat)
  | mongoUpsert
  | storeSet
deriving Repr, DecidableEq

/-- Test for a validator network call. -/
def isValidatorCall : Event → Bool
  | .validatorCall _ _ => true
  | _ => false

/-- Number of provider network calls in a trace. -/
def numValidatorCalls (evs : List Event) : Nat :=
  (evs.filter isValidatorCall).length

/-- Python `provider.lower()`, at the character level. -/
def strLower (s : String) : String := ⟨s.data.map Char.toLower⟩

/-- Authenticator configuration: the JWT secret, algorithm and lifetime
plus the SHA-256 hex digest primitive (`utils.sha256_hex` delegates to
`hashlib`, an external library, so the digest function is carried as an
opaque parameter of the model). -/
structure AuthConfig where
  jwt_secret : String
  jwt_algo : String
  jwt_exp_seconds : Nat
  sha256Hex : String → String

/-- The nondeterministic surroundings of one `authenticate` call: the
outcome of each Facebook/Twitter validator attempt (indexed by call
number), the clock, the freshly generated `uuid4` used as `jti`, and
whether the session-store `set` raises (`some msg`) or succeeds
(`none`). -/
structure Env where
  fb : Nat → Except String Info
  tw : Nat → Except String Info
  now : Nat
  jti : String
  setResult : Option String

/-- The success value of `authenticate`:
`{"app_token": ..., "claims": ...}`. -/
structure AuthOk where
  app_token : AppToken
  claims : Claims
deriving Repr, DecidableEq

instance {ε α : Type} [DecidableEq ε] [DecidableEq α] :
    DecidableEq (Except ε α) := fun x y =>
  match x, y with
  | .ok a, .ok b =>
    if h : a = b then .isTrue (by rw [h]) else .isFalse (by simp [h])
  | .error a, .error b =>
    if h : a = b then .isTrue (by rw [h]) else .isFalse (by simp [h])
  | .ok _, .error _ => .isFalse (by simp)
  | .error _, .ok _ => .isFalse (by simp)

/-- What one `authenticate` call produced: the returned value or the
raised exception, both stores afterwards, and the effect trace. -/
structure AuthResult where
  result : Except AuthError AuthOk
  mongo : MongoStore
  tokens : Table SessionPayload
  events : List Event
deriving Repr, DecidableEq

/-- Authenticator.authenticate: lower-case the provider; dispatch to the
matching validator under `async_retry` (any other provider raises
`ProviderValidationError("Unsupported provider: ...")` before any
network or store access); require a non-empty `uid`; upsert the
identity; mint the claim set and sign it; write the session record with
TTL `jwt_exp_seconds`; return token and claims. -/
def authenticate (cfg : AuthConfig) (env : Env) (ms : MongoStore)
    (ts : Table SessionPayload) (provider social_token : String) :
    AuthResult :=
  let p := strLower provider
  let validation : Option (RetryOut String Info) :=
    if p = "facebook" then some (async_retry env.fb 3 500)
    else if p = "twitter" then some (async_retry env.tw 3 500)
    else none
  match validation with
  | none =>
    { result := .error (.providerValidation ("Unsupported provider: " ++ p))
      mongo := ms, tokens := ts, events := [] }
  | some r =>
    let vEvents := (List.range r.calls).map (fun i => Event.validatorCall p i)
    match r.result with
    | .error msg =>
      { result := .error (.providerValidation msg)
        mongo := ms, tokens := ts, events := vEvents }
    | .ok info =>
      match info.uid with
      | none =>
        { result := .error (.providerValidation "Provider response missing uid")
          mongo := ms, tokens := ts, events := vEvents }
      | some u =>
        if u = "" then
          { result := .error (.providerValidation "Provider response missing uid")
            mongo := ms, tokens := ts, events := vEvents }
        else
          let up := upsert_user ms p u social_token info.name info.email info.extra
          let now := env.now
          let exp := now + cfg.jwt_exp_seconds
          let stHash := cfg.sha256Hex social_token
          let claims : Claims :=
            { iss := "auth_service", sub := p ++ ":" ++ u, provider := p
              uid := u, iat := now, exp := exp, jti := env.jti
              st_hash := stHash }
          let appToken := jwt_encode claims cfg.jwt_secret cfg.jwt_algo
          let payload : SessionPayload :=
            { provider := p, uid := u, st_hash := stHash, issued_at := now
              expires_at := exp, metaName := info.name
              metaEmail := info.email, metaExtra := info.extra }
          match env.setResult with
          | some msg =>
            { result := .error (.tokenStoreError msg)
              mongo := up.store, tokens := ts
              events := vEvents ++ [.mongoUpsert] }
          | none =>
            { result := .ok { app_token := appToken, claims := claims }
              mongo := up.store
              tokens := sqlite_set ts env.jti payload exp
              events := vEvents ++ [.mongoUpsert, .storeSet] }

/-- Authenticator.verify_app_token: decode with the configured secret
and algorithm; both `ExpiredSignatureError` and `InvalidTokenError` are
caught and turned into `None`; no other exception can escape (every
PyJWT failure is an `InvalidTokenError`).  The second component is the
trace of store accesses — always empty: verification never consults the
token store. -/
def verify_app_token (cfg : AuthConfig) (tok : AppToken) (now : Nat) :
    Option Claims × List Event :=
  match jwt_decode tok cfg.jwt_secret cfg.jwt_algo now with
  | .ok c => (some c, [])
  | .expired => (none, [])
  | .invalid => (none, [])

/-- Authenticator.delete_user: delete the identity from Mongo; when
nothing was deleted raise `DataError`; then best-effort delete the
session record, swallowing any exception (`tokenDeleteRaises` says
whether the store delete raises); return `True`. -/
def auth_delete_user (ms : MongoStore) (ts : Table SessionPayload)
    (tokenDeleteRaises : Bool) (provider uid jti : String) :
    Except AuthError Bool × MongoStore × Table SessionPayload :=
  let d := mongo_delete_user ms provider uid
  if d.1 then
    (.ok true, d.2, if tokenDeleteRaises then ts else sqlite_delete ts jti)
  else
    (.error (.dataError "User not found or already deleted"), ms, ts)

end SocialAuth

namespace SocialAuth

/-! ## Helper lemmas -/

/-- After deleting a key, no row with that key remains. -/
theorem sqlite_delete_find_none {α : Type} (t : Table α) (j : String) :
    (sqlite_delete t j).find? (fun r => r.jti == j) = none := by
  rw [List.find?_eq_none]
  intro r hr
  have := List.of_mem_filter hr
  simpa using this

/-- Folding the single-key delete over a list of keys removes exactly
the rows whose `jti` is in the list. -/
theorem foldl_delete_eq_filter {α : Type} (js : List String) (t : Table α) :
    js.foldl (fun acc j => sqlite_delete acc j) t
      = t.filter (fun r => ¬ r.jti ∈ js) := by
  induction js generalizing t with
  | nil => simp
  | cons j js ih =>
    rw [List.foldl_cons, ih]
    unfold sqlite_delete
    rw [List.filter_filter]
    apply List.filter_congr
    intro x _
    by_cases h1 : x.jti = j <;> by_cases h2 : x.jti ∈ js <;>
      simp [h1, h2]

/-- A `REPLACE INTO` makes the stored row retrievable under its key. -/
theorem sqlite_set_find {α : Type} (t : Table α) (j : String) (a : α)
    (e : Nat) :
    (sqlite_set t j a e).find? (fun r => r.jti == j) = some ⟨j, a, e⟩ := by
  unfold sqlite_set
  rw [List.find?_append]
  have hleft : (t.filter (fun r => ¬ r.jti == j)).find?
      (fun r => r.jti == j) = none := by
    rw [List.find?_eq_none]
    intro r hr
    have := List.of_mem_filter hr
    simpa using this
  rw [hleft]
  simp

end SocialAuth

/-- Claim C6: under the SQLite fallback backend, a `get` for a key whose
`expires_at` has passed (current time strictly greater) returns
not-found and deletes the row, so a later inspection of the table finds
no row for that `jti`. -/
theorem SocialAuth.get_expired_evicts {α : Type} (t : SocialAuth.Table α)
    (j : String) (now : Nat) (r : SocialAuth.Row α)
    (hfind : t.find? (fun x => x.jti == j) = some r)
    (hexp : r.expires_at < now) :
    (SocialAuth.sqlite_get now t j).1 = none ∧
    ((SocialAuth.sqlite_get now t j).2).find? (fun x => x.jti == j) = none := by
  unfold SocialAuth.sqlite_get
  rw [hfind]
  dsimp only
  rw [if_pos hexp]
  exact ⟨rfl, SocialAuth.sqlite_delete_find_none t j⟩

/-- Witness for C6 at a concrete table and time. -/
theorem SocialAuth.get_expired_evicts_witness :
    (SocialAuth.sqlite_get 101
      [⟨"j1", "payload1", 100⟩] "j1").1 = (none : Option String) ∧
    ((SocialAuth.sqlite_get 101
      [⟨"j1", "payload1", 100⟩] "j1").2).find? (fun x => x.jti == "j1") = none :=
  SocialAuth.get_expired_evicts [⟨"j1", "payload1", 100⟩] "j1" 101
    ⟨"j1", "payload1", 100⟩ (by decide) (by decide)

/-- Claim C10: at the exact expiry instant (`expires_at = now`) the two
eviction paths of the fallback backend disagree: `get` still returns the
payload and leaves the table unchanged (its check is strict `>`), while
`cleanup_expired` run at the same instant removes the row (its check is
`<=`).  The `Nodup` hypothesis is the `jti` PRIMARY KEY constraint of
the `tokens` table. -/
theorem SocialAuth.expiry_boundary_disagreement {α : Type}
    (t : SocialAuth.Table α) (j : String) (now : Nat) (r : SocialAuth.Row α)
    (hkey : (t.map (fun x => x.jti)).Nodup)
    (hfind : t.find? (fun x => x.jti == j) = some r)
    (hexp : r.expires_at = now) :
    SocialAuth.sqlite_get now t j = (some r.payload, t) ∧
    (SocialAuth.cleanup_expired now t).find? (fun x => x.jti == j) = none := by
  constructor
  · unfold SocialAuth.sqlite_get
    rw [hfind]
    dsimp only
    rw [if_neg (by omega)]
  · rw [List.find?_eq_none]
    intro x hx hbeq
    have hx' := List.mem_filter.mp hx
    have hxt : x ∈ t := hx'.1
    have hxlive : ¬ x.expires_at ≤ now := by simpa using hx'.2
    have hrt : r ∈ t := List.mem_of_find?_eq_some hfind
    have hrj : r.jti = j := by simpa using List.find?_some hfind
    have hxj : x.jti = j := by simpa using hbeq
    have hxr : x = r :=
      List.inj_on_of_nodup_map hkey hxt hrt (by rw [hxj, hrj])
    rw [hxr, hexp] at hxlive
    exact hxlive le_rfl

/-- Witness for C10 at a concrete table: the row expiring exactly now is
still served by `get` but removed by `cleanup_expired`. -/
theorem SocialAuth.expiry_boundary_disagreement_witness :
    SocialAuth.sqlite_get 100 [⟨"j1", "p1", 100⟩] "j1" =
      ((some "p1" : Option String), [⟨"j1", "p1", 100⟩]) ∧
    (SocialAuth.cleanup_expired 100
      ([⟨"j1", "p1", 100⟩] : SocialAuth.Table String)).find?
        (fun x => x.jti == "j1") = none :=
  SocialAuth.expiry_boundary_disagreement [⟨"j1", "p1", 100⟩] "j1" 100
    ⟨"j1", "p1", 100⟩ (by decide) (by decide) (by decide)

/-- Claim C8 counterexample: `cleanup_user` on a table holding exactly
one record for `(facebook, 42)` deletes that record and logs a count of
1, but its Python return value is `None` (`ret = none`), not the count
of records removed — so a claim that it "returns the count" is false at
this input. -/
theorem SocialAuth.cleanup_user_no_count_counterexample :
    SocialAuth.cleanup_user
      [⟨"j1", .obj [("provider", "facebook"), ("uid", "42")], 100⟩]
      "facebook" "42"
      = ⟨[], 1, none⟩ := by
  decide

/-- Claim C8 (amended): `cleanup_user` under the fallback backend scans
all stored records, deletes exactly those whose parsed payload has
matching `provider` and `uid` fields, logs the count of records removed,
and returns `None` (the count is only logged, never returned).  The
`Nodup` hypothesis is the `jti` PRIMARY KEY constraint. -/
theorem SocialAuth.cleanup_user_deletes_matches
    (t : SocialAuth.Table SocialAuth.JPayload) (p u : String)
    (hkey : (t.map (fun r => r.jti)).Nodup) :
    (SocialAuth.cleanup_user t p u).table =
      t.filter (fun r => ¬ SocialAuth.payloadMatches p u r.payload) ∧
    (SocialAuth.cleanup_user t p u).loggedCount =
      (t.filter (fun r => SocialAuth.payloadMatches p u r.payload)).length ∧
    (SocialAuth.cleanup_user t p u).ret = none := by
  refine ⟨?_, by simp [SocialAuth.cleanup_user], rfl⟩
  have htab : (SocialAuth.cleanup_user t p u).table =
      ((t.filter (fun r => SocialAuth.payloadMatches p u r.payload)).map
        (fun r => r.jti)).foldl (fun acc j => SocialAuth.sqlite_delete acc j) t := rfl
  rw [htab, SocialAuth.foldl_delete_eq_filter]
  apply List.filter_congr
  intro x hx
  have key : x.jti ∈ (t.filter
        (fun r => SocialAuth.payloadMatches p u r.payload)).map (fun r => r.jti)
      ↔ SocialAuth.payloadMatches p u x.payload = true := by
    constructor
    · intro hmem
      obtain ⟨r', hr', hj⟩ := List.mem_map.mp hmem
      have hr'f := List.mem_filter.mp hr'
      have hrx : r' = x := List.inj_on_of_nodup_map hkey hr'f.1 hx hj
      rw [← hrx]
      exact hr'f.2
    · intro hm
      exact List.mem_map.mpr ⟨x, List.mem_filter.mpr ⟨hx, hm⟩, rfl⟩
  by_cases hm : SocialAuth.payloadMatches p u x.payload = true <;> simp [key, hm]

/-- Witness for the amended C8 on a concrete two-row table (one matching
record, one for a different user). -/
theorem SocialAuth.cleanup_user_deletes_matches_witness :
    (SocialAuth.cleanup_user
        [⟨"j1", .obj [("provider", "facebook"), ("uid", "42")], 100⟩,
         ⟨"j2", .obj [("provider", "twitter"), ("uid", "7")], 100⟩]
        "facebook" "42").table =
      ([⟨"j1", .obj [("provider", "facebook"), ("uid", "42")], 100⟩,
        ⟨"j2", .obj [("provider", "twitter"), ("uid", "7")], 100⟩] :
          SocialAuth.Table SocialAuth.JPayload).filter
        (fun r => ¬ SocialAuth.payloadMatches "facebook" "42" r.payload) ∧
    (SocialAuth.cleanup_user
        [⟨"j1", .obj [("provider", "facebook"), ("uid", "42")], 100⟩,
         ⟨"j2", .obj [("provider", "twitter"), ("uid", "7")], 100⟩]
        "facebook" "42").loggedCount =
      (([⟨"j1", .obj [("provider", "facebook"), ("uid", "42")], 100⟩,
         ⟨"j2", .obj [("provider", "twitter"), ("uid", "7")], 100⟩] :
          SocialAuth.Table SocialAuth.JPayload).filter
        (fun r => SocialAuth.payloadMatches "facebook" "42" r.payload)).length ∧
    (SocialAuth.cleanup_user
        [⟨"j1", .obj [("provider", "facebook"), ("uid", "42")], 100⟩,
         ⟨"j2", .obj [("provider", "twitter"), ("uid", "7")], 100⟩]
        "facebook" "42").ret = none :=
  SocialAuth.cleanup_user_deletes_matches
    [⟨"j1", .obj [("provider", "facebook"), ("uid", "42")], 100⟩,
     ⟨"j2", .obj [("provider", "twitter"), ("uid", "7")], 100⟩]
    "facebook" "42" (by decide)

/-- Claim C3: when the identity already exists, `upsert_user` issues no
update at all if every compared field (social_token, name, email, and
dict-equality on extra) equals the stored record, and when exactly one
of those fields differs the issued `$set` update holds only that field —
`provider`, `social_id` and unchanged fields are absent from the
update. -/
theorem SocialAuth.upsert_user_frame (s : SocialAuth.MongoStore)
    (p sid tok : String) (nm em : Option String) (ex : SocialAuth.Extra)
    (e : SocialAuth.UserDoc)
    (h : SocialAuth.get_user s p sid = some e) :
    (e.social_token = tok ∧ e.name = SocialAuth.pyOr nm ∧
     e.email = SocialAuth.pyOr em ∧ SocialAuth.dictEq e.extra ex = true →
       (SocialAuth.upsert_user s p sid tok nm em ex).effect = .noWrite ∧
       (SocialAuth.upsert_user s p sid tok nm em ex).store = s) ∧
    (e.social_token ≠ tok ∧ e.name = SocialAuth.pyOr nm ∧
     e.email = SocialAuth.pyOr em ∧ SocialAuth.dictEq e.extra ex = true →
       (SocialAuth.upsert_user s p sid tok nm em ex).effect =
         .updated [.social_token]) ∧
    (e.social_token = tok ∧ e.name ≠ SocialAuth.pyOr nm ∧
     e.email = SocialAuth.pyOr em ∧ SocialAuth.dictEq e.extra ex = true →
       (SocialAuth.upsert_user s p sid tok nm em ex).effect =
         .updated [.name]) ∧
    (e.social_token = tok ∧ e.name = SocialAuth.pyOr nm ∧
     e.email ≠ SocialAuth.pyOr em ∧ SocialAuth.dictEq e.extra ex = true →
       (SocialAuth.upsert_user s p sid tok nm em ex).effect =
         .updated [.email]) ∧
    (e.social_token = tok ∧ e.name = SocialAuth.pyOr nm ∧
     e.email = SocialAuth.pyOr em ∧ SocialAuth.dictEq e.extra ex = false →
       (SocialAuth.upsert_user s p sid tok nm em ex).effect =
         .updated [.extra]) := by
  have h' : List.find? (fun u => u.provider == p && u.social_id == sid)
      s.users = some e := h
  have hkey := List.find?_some h'
  have hp : e.provider = p := by
    have := (Bool.and_eq_true _ _).mp hkey
    simpa using this.1
  have hsid : e.social_id = sid := by
    have := (Bool.and_eq_true _ _).mp hkey
    simpa using this.2
  refine ⟨?_, ?_, ?_, ?_, ?_⟩
  · rintro ⟨h1, h2, h3, h4⟩
    have hd : SocialAuth.diffFields
        (SocialAuth.mkDoc p sid tok nm em ex) e = [] := by
      simp [SocialAuth.diffFields, SocialAuth.mkDoc, hp, hsid, h1, h2, h3, h4]
    constructor <;> simp [SocialAuth.upsert_user, h, hd]
  · rintro ⟨h1, h2, h3, h4⟩
    have hd : SocialAuth.diffFields
        (SocialAuth.mkDoc p sid tok nm em ex) e = [.social_token] := by
      simp [SocialAuth.diffFields, SocialAuth.mkDoc, hp, hsid, h1, h2, h3, h4]
    simp [SocialAuth.upsert_user, h, hd]
  · rintro ⟨h1, h2, h3, h4⟩
    have hd : SocialAuth.diffFields
        (SocialAuth.mkDoc p sid tok nm em ex) e = [.name] := by
      simp [SocialAuth.diffFields, SocialAuth.mkDoc, hp, hsid, h1, h2, h3, h4]
    simp [SocialAuth.upsert_user, h, hd]
  · rintro ⟨h1, h2, h3, h4⟩
    have hd : SocialAuth.diffFields
        (SocialAuth.mkDoc p sid tok nm em ex) e = [.email] := by
      simp [SocialAuth.diffFields, SocialAuth.mkDoc, hp, hsid, h1, h2, h3, h4]
    simp [SocialAuth.upsert_user, h, hd]
  · rintro ⟨h1, h2, h3, h4⟩
    have hd : SocialAuth.diffFields
        (SocialAuth.mkDoc p sid tok nm em ex) e = [.extra] := by
      simp [SocialAuth.diffFields, SocialAuth.mkDoc, hp, hsid, h1, h2, h3, h4]
    simp [SocialAuth.upsert_user, h, hd]

/-- Witness for C3: a store holding exactly the incoming identity gets
no write; the same store with only the email changed gets an update of
exactly the email field. -/
theorem SocialAuth.upsert_user_frame_witness :
    ((SocialAuth.upsert_user ⟨[⟨"facebook", "42", "tok", "Alice", "a@b.c",
        [("k", "v")]⟩]⟩ "facebook" "42" "tok" (some "Alice") (some "a@b.c")
        [("k", "v")]).effect = .noWrite ∧
     (SocialAuth.upsert_user ⟨[⟨"facebook", "42", "tok", "Alice", "a@b.c",
        [("k", "v")]⟩]⟩ "facebook" "42" "tok" (some "Alice") (some "a@b.c")
        [("k", "v")]).store = ⟨[⟨"facebook", "42", "tok", "Alice", "a@b.c",
        [("k", "v")]⟩]⟩) ∧
    (SocialAuth.upsert_user ⟨[⟨"facebook", "42", "tok", "Alice", "a@b.c",
        [("k", "v")]⟩]⟩ "facebook" "42" "tok" (some "Alice") (some "new@b.c")
        [("k", "v")]).effect = .updated [.email] :=
  ⟨(SocialAuth.upsert_user_frame ⟨[⟨"facebook", "42", "tok", "Alice",
      "a@b.c", [("k", "v")]⟩]⟩ "facebook" "42" "tok" (some "Alice")
      (some "a@b.c") [("k", "v")] ⟨"facebook", "42", "tok", "Alice",
      "a@b.c", [("k", "v")]⟩ (by decide)).1
    ⟨by decide, by decide, by decide, by decide⟩,
   (SocialAuth.upsert_user_frame ⟨[⟨"facebook", "42", "tok", "Alice",
      "a@b.c", [("k", "v")]⟩]⟩ "facebook" "42" "tok" (some "Alice")
      (some "new@b.c") [("k", "v")] ⟨"facebook", "42", "tok", "Alice",
      "a@b.c", [("k", "v")]⟩ (by decide)).2.2.2.1
    ⟨by decide, by decide, by decide, by decide⟩⟩

/-- Claim C1 counterexample: the code raises `ProviderValidationError`
for the unsupported provider `"linkedin"` — the very same exception
class (the spec's `ProviderValidationFailed`) that a failing provider
validation raises — so there is no *distinct* `UnsupportedProvider`
error kind.  (The early-failure part of the claim is true and proved in
the amended theorem.) -/
theorem SocialAuth.unsupported_error_kind_counterexample :
    (SocialAuth.authenticate ⟨"secret", "HS256", 3600, fun _ => "h"⟩
      ⟨fun _ => .error "fb down", fun _ => .error "tw down", 0, "j", none⟩
      ⟨[]⟩ [] "linkedin" "tok").result =
      .error (.providerValidation "Unsupported provider: linkedin") ∧
    (SocialAuth.authenticate ⟨"secret", "HS256", 3600, fun _ => "h"⟩
      ⟨fun _ => .error "fb down", fun _ => .error "tw down", 0, "j", none⟩
      ⟨[]⟩ [] "linkedin" "tok").events = [] ∧
    (SocialAuth.authenticate ⟨"secret", "HS256", 3600, fun _ => "h"⟩
      ⟨fun _ => .error "fb down", fun _ => .error "tw down", 0, "j", none⟩
      ⟨[]⟩ [] "facebook" "tok").result =
      .error (.providerValidation "fb down") := by
  refine ⟨rfl, rfl, ?_⟩
  decide

/-- Claim C1 (amended): for every provider name not in {facebook,
twitter} after case-insensitive normalization, `authenticate` fails
with a `ProviderValidationError` reading "Unsupported provider: ..."
(not a distinct error kind), and does so before any provider network
call, identity-store write or session-store write: both stores are
untouched and the effect trace is empty. -/
theorem SocialAuth.authenticate_unsupported (cfg : SocialAuth.AuthConfig)
    (env : SocialAuth.Env) (ms : SocialAuth.MongoStore)
    (ts : SocialAuth.Table SocialAuth.SessionPayload)
    (provider tok : String)
    (h1 : SocialAuth.strLower provider ≠ "facebook")
    (h2 : SocialAuth.strLower provider ≠ "twitter") :
    SocialAuth.authenticate cfg env ms ts provider tok =
      { result := .error (.providerValidation
          ("Unsupported provider: " ++ SocialAuth.strLower provider))
        mongo := ms, tokens := ts, events := [] } := by
  simp [SocialAuth.authenticate, h1, h2]

/-- Witness for the amended C1 at provider "linkedin". -/
theorem SocialAuth.authenticate_unsupported_witness :
    SocialAuth.authenticate ⟨"secret", "HS256", 3600, fun _ => "h"⟩
      ⟨fun _ => .error "fb down", fun _ => .error "tw down", 0, "j", none⟩
      ⟨[]⟩ [] "linkedin" "tok" =
      { result := .error (.providerValidation
          ("Unsupported provider: " ++ SocialAuth.strLower "linkedin"))
        mongo := ⟨[]⟩, tokens := [], events := [] } :=
  SocialAuth.authenticate_unsupported ⟨"secret", "HS256", 3600, fun _ => "h"⟩
    ⟨fun _ => .error "fb down", fun _ => .error "tw down", 0, "j", none⟩
    ⟨[]⟩ [] "linkedin" "tok" (by decide) (by decide)

/-- Claim C5: `delete_user` on a nonexistent (provider, uid) fails with
`DataError` whatever the session store holds and whatever `jti` is
passed, leaving both stores untouched; and when the identity record
exists the operation returns `True` whether or not the session-store
delete raises — success is determined solely by the identity
deletion. -/
theorem SocialAuth.delete_user_semantics (ms : SocialAuth.MongoStore)
    (ts : SocialAuth.Table SocialAuth.SessionPayload)
    (raises : Bool) (p uid jti : String) :
    (SocialAuth.get_user ms p uid = none →
      SocialAuth.auth_delete_user ms ts raises p uid jti =
        (.error (.dataError "User not found or already deleted"), ms, ts)) ∧
    ((SocialAuth.get_user ms p uid).isSome →
      (SocialAuth.auth_delete_user ms ts raises p uid jti).1 = .ok true) := by
  constructor
  · intro h
    simp [SocialAuth.auth_delete_user, SocialAuth.mongo_delete_user, h]
  · intro h
    obtain ⟨e, he⟩ := Option.isSome_iff_exists.mp h
    simp [SocialAuth.auth_delete_user, SocialAuth.mongo_delete_user, he]

/-- Witness for C5: deletion of a missing user fails with `DataError`
even though the session store holds a record for the `jti`; deletion of
an existing user returns `True` even though the session-store delete is
made to raise. -/
theorem SocialAuth.delete_user_semantics_witness :
    (SocialAuth.auth_delete_user ⟨[]⟩
        [⟨"j", ⟨"facebook", "42", "h", 0, 9, none, none, []⟩, 9⟩]
        true "facebook" "42" "j" =
      (.error (.dataError "User not found or already deleted"), ⟨[]⟩,
        [⟨"j", ⟨"facebook", "42", "h", 0, 9, none, none, []⟩, 9⟩])) ∧
    ((SocialAuth.auth_delete_user ⟨[⟨"facebook", "42", "t", "", "", []⟩]⟩
        [] true "facebook" "42" "j").1 = .ok true) :=
  ⟨(SocialAuth.delete_user_semantics ⟨[]⟩
      [⟨"j", ⟨"facebook", "42", "h", 0, 9, none, none, []⟩, 9⟩]
      true "facebook" "42" "j").1 (by decide),
   (SocialAuth.delete_user_semantics ⟨[⟨"facebook", "42", "t", "", "", []⟩]⟩
      [] true "facebook" "42" "j").2 (by decide)⟩

/-- Claim C7: `verify_app_token` is a total function — an expired
signature or any structural/signature invalidity yields the null result
`none`, a valid token yields its claims, and no exception propagates
(every PyJWT failure is one of the two caught classes); in every case
the session-store access trace is empty: verification performs no
Session Token Store lookup. -/
theorem SocialAuth.verify_soft_fail (cfg : SocialAuth.AuthConfig)
    (tok : SocialAuth.AppToken) (now : Nat) :
    (SocialAuth.verify_app_token cfg tok now).2 = [] ∧
    (SocialAuth.jwt_decode tok cfg.jwt_secret cfg.jwt_algo now = .expired →
      (SocialAuth.verify_app_token cfg tok now).1 = none) ∧
    (SocialAuth.jwt_decode tok cfg.jwt_secret cfg.jwt_algo now = .invalid →
      (SocialAuth.verify_app_token cfg tok now).1 = none) ∧
    (∀ c, SocialAuth.jwt_decode tok cfg.jwt_secret cfg.jwt_algo now = .ok c →
      (SocialAuth.verify_app_token cfg tok now).1 = some c) := by
  cases hd : SocialAuth.jwt_decode tok cfg.jwt_secret cfg.jwt_algo now <;>
    simp [SocialAuth.verify_app_token, hd]

/-- Witness for C7: an expired token (exp 10, verified at 20) gives
`none` with an empty store-access trace; a garbage string also gives
`none`. -/
theorem SocialAuth.verify_soft_fail_witness :
    (SocialAuth.verify_app_token ⟨"s", "HS256", 3600, fun _ => "h"⟩
      (.signed ⟨"auth_service", "facebook:42", "facebook", "42", 0, 10,
        "j", "h"⟩ "s" "HS256") 20).1 = none ∧
    (SocialAuth.verify_app_token ⟨"s", "HS256", 3600, fun _ => "h"⟩
      (.signed ⟨"auth_service", "facebook:42", "facebook", "42", 0, 10,
        "j", "h"⟩ "s" "HS256") 20).2 = [] ∧
    (SocialAuth.verify_app_token ⟨"s", "HS256", 3600, fun _ => "h"⟩
      (.malformed "garbage") 20).1 = none :=
  ⟨(SocialAuth.verify_soft_fail ⟨"s", "HS256", 3600, fun _ => "h"⟩
      (.signed ⟨"auth_service", "facebook:42", "facebook", "42", 0, 10,
        "j", "h"⟩ "s" "HS256") 20).2.1 (by decide),
   (SocialAuth.verify_soft_fail ⟨"s", "HS256", 3600, fun _ => "h"⟩
      (.signed ⟨"auth_service", "facebook:42", "facebook", "42", 0, 10,
        "j", "h"⟩ "s" "HS256") 20).1,
   (SocialAuth.verify_soft_fail ⟨"s", "HS256", 3600, fun _ => "h"⟩
      (.malformed "garbage") 20).2.2.1 (by decide)⟩

/-- Counting the validator-call events of a retry trace gives the call
count. -/
theorem SocialAuth.numValidatorCalls_range (p : String) (n : Nat) :
    SocialAuth.numValidatorCalls
      ((List.range n).map (fun i => SocialAuth.Event.validatorCall p i)) = n := by
  have hcomp : (SocialAuth.isValidatorCall ∘ fun i =>
      SocialAuth.Event.validatorCall p i) = fun _ => true := rfl
  simp [SocialAuth.numValidatorCalls, List.filter_map, hcomp]

/-- Claim C2 counterexample: with a validator that fails on every
attempt, `authenticate` makes 4 provider calls (one initial attempt
plus 3 retries), not at most 3 as claimed; the sleeps between the
attempts are 0.5 s, 1.0 s and 2.0 s (here in milliseconds). -/
theorem SocialAuth.retry_four_calls_counterexample :
    SocialAuth.numValidatorCalls
      (SocialAuth.authenticate ⟨"secret", "HS256", 3600, fun _ => "h"⟩
        ⟨fun _ => .error "boom", fun _ => .error "boom", 0, "j", none⟩
        ⟨[]⟩ [] "facebook" "tok").events = 4 ∧
    (SocialAuth.async_retry (fun _ => (.error "boom" : Except String SocialAuth.Info))
      3 500).calls = 4 ∧
    (SocialAuth.async_retry (fun _ => (.error "boom" : Except String SocialAuth.Info))
      3 500).sleepsMs = [500, 1000, 2000] := by
  refine ⟨?_, by decide, by decide⟩
  decide

/-- Claim C2 (amended): `async_retry` as used by `authenticate`
(`retries=3`, backoff factor 0.5 s) calls the validator at most 4 times
(one initial attempt plus up to 3 retries); the sleeps between
successive attempts follow the exponential backoff 0.5 s · 2^i — i.e.
0.5 s, 1.0 s, 2.0 s (500/1000/2000 ms) when all sleeps happen; and when
every attempt fails the 4th attempt's failure is the one that
propagates, surfacing from `authenticate` as a
`ProviderValidationError` after exactly 4 validator calls. -/
theorem SocialAuth.async_retry_bounds
    (f : Nat → Except String SocialAuth.Info) :
    (SocialAuth.async_retry f 3 500).calls ≤ 4 ∧
    (SocialAuth.async_retry f 3 500).sleepsMs =
      (List.range ((SocialAuth.async_retry f 3 500).calls - 1)).map
        (fun m => 500 * 2 ^ m) ∧
    (∀ e, (SocialAuth.async_retry f 3 500).result = .error e →
      (SocialAuth.async_retry f 3 500).calls = 4 ∧
      (SocialAuth.async_retry f 3 500).sleepsMs = [500, 1000, 2000] ∧
      f 3 = .error e) ∧
    (∀ cfg env ms ts tok e, env.fb = f →
      (SocialAuth.async_retry f 3 500).result = .error e →
      (SocialAuth.authenticate cfg env ms ts "facebook" tok).result =
        .error (.providerValidation e) ∧
      SocialAuth.numValidatorCalls
        (SocialAuth.authenticate cfg env ms ts "facebook" tok).events = 4) := by
  have hsl : SocialAuth.strLower "facebook" = "facebook" := by decide
  have main : (SocialAuth.async_retry f 3 500).calls ≤ 4 ∧
      (SocialAuth.async_retry f 3 500).sleepsMs =
        (List.range ((SocialAuth.async_retry f 3 500).calls - 1)).map
          (fun m => 500 * 2 ^ m) ∧
      (∀ e, (SocialAuth.async_retry f 3 500).result = .error e →
        (SocialAuth.async_retry f 3 500).calls = 4 ∧
        (SocialAuth.async_retry f 3 500).sleepsMs = [500, 1000, 2000] ∧
        f 3 = .error e) := by
    cases h0 : f 0 with
    | ok a => simp [SocialAuth.async_retry, SocialAuth.retryGo, h0]
    | error e0 =>
      cases h1 : f 1 with
      | ok a =>
        simp [SocialAuth.async_retry, SocialAuth.retryGo, h0, h1,
          List.range_succ]
      | error e1 =>
        cases h2 : f 2 with
        | ok a =>
          simp [SocialAuth.async_retry, SocialAuth.retryGo, h0, h1, h2,
            List.range_succ]
        | error e2 =>
          cases h3 : f 3 with
          | ok a =>
            simp [SocialAuth.async_retry, SocialAuth.retryGo, h0, h1, h2, h3,
              List.range_succ]
          | error e3 =>
            simp [SocialAuth.async_retry, SocialAuth.retryGo, h0, h1, h2, h3,
              List.range_succ]
  refine ⟨main.1, main.2.1, main.2.2, ?_⟩
  intro cfg env ms ts tok e hfb hr
  subst hfb
  have hc := (main.2.2 e hr).1
  constructor
  · simp [SocialAuth.authenticate, hsl, hr]
  · simp [SocialAuth.authenticate, hsl, hr,
      SocialAuth.numValidatorCalls_range, hc]

/-- Witness for the amended C2: the all-failing validator makes exactly
4 calls with sleeps 500/1000/2000 ms, and the last failure surfaces
from `authenticate` as a `ProviderValidationError`. -/
theorem SocialAuth.async_retry_bounds_witness :
    (SocialAuth.async_retry
      (fun _ => (.error "boom" : Except String SocialAuth.Info)) 3 500).calls ≤ 4 ∧
    (SocialAuth.authenticate ⟨"secret", "HS256", 3600, fun _ => "h"⟩
      ⟨fun _ => .error "boom", fun _ => .error "boom", 0, "j", none⟩
      ⟨[]⟩ [] "facebook" "tok").result =
      .error (.providerValidation "boom") :=
  ⟨(SocialAuth.async_retry_bounds
      (fun _ => (.error "boom" : Except String SocialAuth.Info))).1,
   ((SocialAuth.async_retry_bounds
      (fun _ => (.error "boom" : Except String SocialAuth.Info))).2.2.2
      ⟨"secret", "HS256", 3600, fun _ => "h"⟩
      ⟨fun _ => .error "boom", fun _ => .error "boom", 0, "j", none⟩
      ⟨[]⟩ [] "tok" "boom" rfl (by decide)).1⟩

namespace SocialAuth

/-- Shape of a successful `authenticate`: the returned token is the
returned claim set signed with the configured secret and algorithm, and
the claims expire `jwt_exp_seconds` after issuance. -/
theorem authenticate_ok_shape (cfg : AuthConfig) (env : Env)
    (ms : MongoStore) (ts : Table SessionPayload) (p tok : String)
    (out : AuthOk)
    (h : (authenticate cfg env ms ts p tok).result = .ok out) :
    out.app_token = .signed out.claims cfg.jwt_secret cfg.jwt_algo ∧
    out.claims.exp = env.now + cfg.jwt_exp_seconds := by
  simp only [authenticate] at h
  split at h
  · exact absurd h (by simp)
  · split at h
    · exact absurd h (by simp)
    · split at h
      · exact absurd h (by simp)
      · split at h
        · exact absurd h (by simp)
        · split at h
          · exact absurd h (by simp)
          · have h2 : _ = out := Except.ok.inj h
            subst h2
            exact ⟨rfl, rfl⟩

end SocialAuth

namespace SocialAuth

/-- Claim C4: a token minted by a successful `authenticate`, passed to
`verify_app_token` with the same configuration (secret and algorithm)
before its expiry, decodes successfully, and the decoded claims carry
the same `sub`, `jti` and `uid` as the claim set `authenticate`
returned. -/
theorem authenticate_verify_roundtrip (cfg : AuthConfig) (env : Env)
    (ms : MongoStore) (ts : Table SessionPayload) (p tok : String)
    (out : AuthOk) (now_v : Nat)
    (hok : (authenticate cfg env ms ts p tok).result = .ok out)
    (hfresh : now_v < out.claims.exp) :
    ∃ d, (verify_app_token cfg out.app_token now_v).1 = some d ∧
      d.sub = out.claims.sub ∧ d.jti = out.claims.jti ∧
      d.uid = out.claims.uid := by
  obtain ⟨hshape, -⟩ := authenticate_ok_shape cfg env ms ts p tok out hok
  refine ⟨out.claims, ?_, rfl, rfl, rfl⟩
  rw [hshape]
  unfold verify_app_token jwt_decode
  dsimp only
  rw [if_pos ⟨rfl, rfl⟩, if_neg (by omega)]

/-- Witness for C4 at a concrete successful authentication (facebook
validator answering uid 42 / name Alice, issued at 1000 with TTL 3600,
verified at 2000). -/
theorem authenticate_verify_roundtrip_witness :
    ∃ d, (verify_app_token ⟨"sec", "HS256", 3600, fun _ => "H"⟩
        (AuthOk.app_token ⟨.signed ⟨"auth_service", "facebook:42",
          "facebook", "42", 1000, 4600, "jti-1", "H"⟩ "sec" "HS256",
          ⟨"auth_service", "facebook:42", "facebook", "42", 1000, 4600,
            "jti-1", "H"⟩⟩) 2000).1 = some d ∧
      d.sub = (AuthOk.claims ⟨.signed ⟨"auth_service", "facebook:42",
          "facebook", "42", 1000, 4600, "jti-1", "H"⟩ "sec" "HS256",
          ⟨"auth_service", "facebook:42", "facebook", "42", 1000, 4600,
            "jti-1", "H"⟩⟩).sub ∧
      d.jti = (AuthOk.claims ⟨.signed ⟨"auth_service", "facebook:42",
          "facebook", "42", 1000, 4600, "jti-1", "H"⟩ "sec" "HS256",
          ⟨"auth_service", "facebook:42", "facebook", "42", 1000, 4600,
            "jti-1", "H"⟩⟩).jti ∧
      d.uid = (AuthOk.claims ⟨.signed ⟨"auth_service", "facebook:42",
          "facebook", "42", 1000, 4600, "jti-1", "H"⟩ "sec" "HS256",
          ⟨"auth_service", "facebook:42", "facebook", "42", 1000, 4600,
            "jti-1", "H"⟩⟩).uid :=
  authenticate_verify_roundtrip ⟨"sec", "HS256", 3600, fun _ => "H"⟩
    ⟨fun _ => .ok ⟨some "42", some "Alice", none, []⟩,
      fun _ => .error "tw down", 1000, "jti-1", none⟩
    ⟨[]⟩ [] "facebook" "tok"
    ⟨.signed ⟨"auth_service", "facebook:42", "facebook", "42", 1000, 4600,
      "jti-1", "H"⟩ "sec" "HS256",
      ⟨"auth_service", "facebook:42", "facebook", "42", 1000, 4600,
        "jti-1", "H"⟩⟩ 2000 (by decide) (by decide)

end SocialAuth

namespace SocialAuth

/-- Claim C9: a first-time `authenticate("facebook", "tok123")` whose
validator returns `{uid: "42", name: "Alice"}` succeeds; it creates the
identity record `{provider: facebook, social_id: 42, social_token:
tok123, name: Alice, email: ""}`; the returned claims carry
`sub = "facebook:42"`, `provider = "facebook"`, `uid = "42"` and the
fresh `jti`; and the session record stored under that `jti` has
`st_hash` equal to the SHA-256 hex digest of `"tok123"`. -/
theorem authenticate_facebook_scenario (cfg : AuthConfig) (env : Env)
    (ms : MongoStore) (ts : Table SessionPayload)
    (hfb : env.fb 0 = .ok ⟨some "42", some "Alice", none, []⟩)
    (hset : env.setResult = none)
    (hnew : get_user ms "facebook" "42" = none) :
    ∃ out, (authenticate cfg env ms ts "facebook" "tok123").result =
        .ok out ∧
      out.claims.sub = "facebook:42" ∧
      out.claims.provider = "facebook" ∧
      out.claims.uid = "42" ∧
      out.claims.jti = env.jti ∧
      out.claims.st_hash = cfg.sha256Hex "tok123" ∧
      get_user (authenticate cfg env ms ts "facebook" "tok123").mongo
        "facebook" "42" = some ⟨"facebook", "42", "tok123", "Alice", "", []⟩ ∧
      ∃ row, ((authenticate cfg env ms ts "facebook" "tok123").tokens).find?
          (fun r => r.jti == env.jti) = some row ∧
        row.payload.st_hash = cfg.sha256Hex "tok123" := by
  have hsl : strLower "facebook" = "facebook" := by decide
  have hres : authenticate cfg env ms ts "facebook" "tok123" =
      { result := .ok
          ⟨.signed ⟨"auth_service", "facebook" ++ ":" ++ "42", "facebook",
              "42", env.now, env.now + cfg.jwt_exp_seconds, env.jti,
              cfg.sha256Hex "tok123"⟩ cfg.jwt_secret cfg.jwt_algo,
            ⟨"auth_service", "facebook" ++ ":" ++ "42", "facebook", "42",
              env.now, env.now + cfg.jwt_exp_seconds, env.jti,
              cfg.sha256Hex "tok123"⟩⟩
        mongo := ⟨ms.users ++ [⟨"facebook", "42", "tok123", "Alice", "", []⟩]⟩
        tokens := sqlite_set ts env.jti
          ⟨"facebook", "42", cfg.sha256Hex "tok123", env.now,
            env.now + cfg.jwt_exp_seconds, some "Alice", none, []⟩
          (env.now + cfg.jwt_exp_seconds)
        events := [.validatorCall "facebook" 0, .mongoUpsert, .storeSet] } := by
    simp [authenticate, hsl, async_retry, retryGo, hfb, hset, upsert_user,
      hnew, mkDoc, pyOr, jwt_encode, List.range_succ]
  refine ⟨⟨.signed ⟨"auth_service", "facebook" ++ ":" ++ "42", "facebook",
      "42", env.now, env.now + cfg.jwt_exp_seconds, env.jti,
      cfg.sha256Hex "tok123"⟩ cfg.jwt_secret cfg.jwt_algo,
    ⟨"auth_service", "facebook" ++ ":" ++ "42", "facebook", "42",
      env.now, env.now + cfg.jwt_exp_seconds, env.jti,
      cfg.sha256Hex "tok123"⟩⟩,
    by rw [hres], rfl, rfl, rfl, rfl, rfl, ?_, ?_⟩
  · rw [hres]
    show List.find?
        (fun u => u.provider == "facebook" && u.social_id == "42")
        (ms.users ++ [⟨"facebook", "42", "tok123", "Alice", "", []⟩]) =
      some ⟨"facebook", "42", "tok123", "Alice", "", []⟩
    rw [List.find?_append]
    have hn : List.find?
        (fun u => u.provider == "facebook" && u.social_id == "42")
        ms.users = none := hnew
    rw [hn]
    simp
  · rw [hres]
    exact ⟨⟨env.jti, ⟨"facebook", "42", cfg.sha256Hex "tok123", env.now,
        env.now + cfg.jwt_exp_seconds, some "Alice", none, []⟩,
        env.now + cfg.jwt_exp_seconds⟩,
      sqlite_set_find ts env.jti _ _, rfl⟩

end SocialAuth

namespace SocialAuth

/-- Witness for C9 at a fully concrete configuration and environment
(secret "sec", TTL 3600, clock 1000, fresh jti "jti-1", empty stores). -/
theorem authenticate_facebook_scenario_witness :
    ∃ out, (authenticate ⟨"sec", "HS256", 3600, fun _ => "H"⟩
        ⟨fun _ => .ok ⟨some "42", some "Alice", none, []⟩,
          fun _ => .error "tw down", 1000, "jti-1", none⟩
        ⟨[]⟩ [] "facebook" "tok123").result = .ok out ∧
      out.claims.sub = "facebook:42" ∧
      out.claims.provider = "facebook" ∧
      out.claims.uid = "42" ∧
      out.claims.jti = (Env.jti ⟨fun _ => .ok ⟨some "42", some "Alice",
        none, []⟩, fun _ => .error "tw down", 1000, "jti-1", none⟩) ∧
      out.claims.st_hash = (AuthConfig.sha256Hex
        ⟨"sec", "HS256", 3600, fun _ => "H"⟩ "tok123") ∧
      get_user (authenticate ⟨"sec", "HS256", 3600, fun _ => "H"⟩
        ⟨fun _ => .ok ⟨some "42", some "Alice", none, []⟩,
          fun _ => .error "tw down", 1000, "jti-1", none⟩
        ⟨[]⟩ [] "facebook" "tok123").mongo "facebook" "42" =
        some ⟨"facebook", "42", "tok123", "Alice", "", []⟩ ∧
      ∃ row, ((authenticate ⟨"sec", "HS256", 3600, fun _ => "H"⟩
          ⟨fun _ => .ok ⟨some "42", some "Alice", none, []⟩,
            fun _ => .error "tw down", 1000, "jti-1", none⟩
          ⟨[]⟩ [] "facebook" "tok123").tokens).find?
          (fun r => r.jti == (Env.jti ⟨fun _ => .ok ⟨some "42",
            some "Alice", none, []⟩, fun _ => .error "tw down", 1000,
            "jti-1", none⟩)) = some row ∧
        row.payload.st_hash = (AuthConfig.sha256Hex
          ⟨"sec", "HS256", 3600, fun _ => "H"⟩ "tok123") :=
  authenticate_facebook_scenario ⟨"sec", "HS256", 3600, fun _ => "H"⟩
    ⟨fun _ => .ok ⟨some "42", some "Alice", none, []⟩,
      fun _ => .error "tw down", 1000, "jti-1", none⟩
    ⟨[]⟩ [] rfl rfl rfl

end SocialAuth
